import Mathlib

/-!
Shallow embedding of the arXiv LaTeX MCP server core (src/server/main.py):
the tool dispatcher (`handle_call_tool`), the search pipeline
(`_handle_search`: argument check, one HTTP GET against the arXiv API,
Atom-entry extraction into `SearchResultModel` records, formatting), and
the fetch pipeline (`_handle_fetch`: argument check, one call to the
external `process_latex_source` collaborator, response assembly).

Modelling choices:
- Python `dict[str, Any] | None` argument bags become `Option ArgMap`
  with `ArgMap = List (String × String)`; the check
  `if not args or "key" not in args` is `args = none` or key lookup
  failing (an empty dict contains no keys, so emptiness is subsumed by
  lookup failure).
- One Atom feed `entry` element is a record of three `Option String`
  fields; `none` stands for a missing element or a missing `.text` (in
  Python either raises `AttributeError` inside the loop, aborting the
  whole handler).
- The two external collaborators (HTTP GET + `ET.fromstring` + `findall`
  on one side, `process_latex_source` on the other) are a `Collab`
  record of oracle functions; every invocation is logged in an explicit
  `ExtCall` trace so that claims of the form "no external call is made"
  are statable.
- Python string slicing `summary[:500]` is by code point, matching
  `List.take 500` on `String.data`.
-/

/-- One parsed Atom feed entry as consumed by the loop in
`_handle_search` (src/server/main.py lines 101-114). Each field is
`none` when the element or its text is absent. -/
structure Entry where
  id : Option String
  title : Option String
  summary : Option String
deriving Repr, DecidableEq

/-- Mirror of the pydantic `SearchResultModel` (main.py lines 25-29). -/
structure SearchResultModel where
  id : String
  title : String
  text : String
  url : String
deriving Repr, DecidableEq

/-- Mirror of `mcp.types.TextContent` as used by main.py: always
`type="text"`, a text payload, and an optional string-to-string
metadata mapping. -/
structure TextContent where
  type : String
  text : String
  metadata : Option (List (String × String))
deriving Repr, DecidableEq

/-- Errors that escape a handler and reject the call at the transport
boundary. In Python these are raised exceptions: `ValueError` for a
missing argument or an unknown tool, `AttributeError` for a feed entry
missing a required field (modelled as `parseError` carrying the field
name). -/
inductive DispatchError where
  | missingArgument (argName : String)
  | unknownTool (toolName : String)
  | parseError (fieldName : String)
deriving Repr, DecidableEq

/-- One external-collaborator invocation, recorded in a trace. -/
inductive ExtCall where
  | httpGet (url : String)
  | flattenCall (arxivId : String)
deriving Repr, DecidableEq

/-- The two external collaborators. `atomEntries` abstracts the
composite `session.get` + `ET.fromstring` + `findall("entry")`
(main.py lines 94-101): given the request URL it yields the feed
entries. `process_latex_source` is the flattening collaborator
(main.py line 140): flattened text on success, an error message
(`str(exc)`) on failure. -/
structure Collab where
  atomEntries : String → List Entry
  process_latex_source : String → Except String String

/-- Python-style `str.split(sep)` on a list of characters: splits into
segments around every occurrence of `sep`, keeping empty segments, and
always yields at least one segment. -/
def pySplit (sep : Char) : List Char → List (List Char)
  | [] => [[]]
  | c :: cs =>
    if c = sep then
      [] :: pySplit sep cs
    else
      match pySplit sep cs with
      | [] => [[c]]
      | seg :: rest => (c :: seg) :: rest

/-- Mirror of `entry_id_text.split("/")[-1]` (main.py line 102): the
segment after the final slash. -/
def lastSegment (s : String) : String :=
  ⟨(pySplit ('/') s.data).getLastD []⟩

/-- The three-character sequence appended by main.py line 111. The
source literal is the UTF-8 mojibake of a horizontal ellipsis
(bytes C3 A2 E2 82 AC C2 A6, i.e. the characters U+00E2 U+20AC
U+00A6), not the single glyph U+2026. -/
def mojibakeEllipsis : String := "â€¦"

/-- Mirror of `summary[:500] + ("â€¦" if len(summary) > 500 else "")`
(main.py line 111). Python slices `str` by code point. -/
def truncateSummary (summary : String) : String :=
  ⟨summary.data.take 500⟩ ++ (if summary.length > 500 then mojibakeEllipsis else "")

/-- Mirror of the f-string `https://arxiv.org/abs/` followed by the id
(main.py lines 105, 156, 170). -/
def arxivAbsUrl (arxivId : String) : String :=
  "https://arxiv.org/abs/" ++ arxivId

/-- Mirror of `ARXIV_API_URL.format(query)` (main.py lines 40, 95):
the query is substituted verbatim into the fixed template. -/
def arxiv_api_url (query : String) : String :=
  "https://export.arxiv.org/api/query?search_query=" ++ query ++ "&max_results=10"

/-- One iteration of the entry loop of `_handle_search` (main.py lines
101-114): extract the id (raising on a missing id field), then title,
then summary, and build the record. The field access order matches the
Python statement order. -/
def mkRecord (entry : Entry) : Except DispatchError SearchResultModel :=
  match entry.id with
  | none => .error (.parseError "id")
  | some idText =>
    let arxivId := lastSegment idText
    match entry.title with
    | none => .error (.parseError "title")
    | some titleText =>
      match entry.summary with
      | none => .error (.parseError "summary")
      | some summaryText =>
        .ok { id := arxivId
              title := titleText.trim
              text := truncateSummary summaryText.trim
              url := arxivAbsUrl arxivId }

/-- The whole entry loop: builds the record list in feed order; the
first entry with a missing field aborts the loop (the Python exception
propagates out of the handler). -/
def parseEntries : List Entry → Except DispatchError (List SearchResultModel)
  | [] => .ok []
  | e :: es => do
    let r ← mkRecord e
    let rs ← parseEntries es
    pure (r :: rs)

/-- Sentinel returned for an empty result list (main.py line 119). -/
def noPapersMessage : String := "No papers found for the given query."

/-- Header line initialising the accumulator (main.py line 122). -/
def searchHeader : String := "Search Results:\n\n"

/-- The four formatted lines appended per record (main.py lines
124-127). -/
def recordBlock (r : SearchResultModel) : String :=
  "ID: " ++ r.id ++ "\n" ++ "Title: " ++ r.title ++ "\n" ++
  "Summary: " ++ r.text ++ "\n" ++ "URL: " ++ r.url ++ "\n\n"

/-- The accumulation loop of main.py lines 122-127. -/
def formattedText (results : List SearchResultModel) : String :=
  results.foldl (fun acc r => acc ++ recordBlock r) searchHeader

/-- Result formatting (main.py lines 117-129): the sentinel for an
empty list, otherwise the header plus one block per record; in both
cases a single `TextContent` with no metadata. -/
def formatResults (results : List SearchResultModel) : List TextContent :=
  if results.isEmpty then
    [{ type := "text", text := noPapersMessage, metadata := none }]
  else
    [{ type := "text", text := formattedText results, metadata := none }]

/-- Argument bag: a string-keyed mapping (Python dict with string
values, as both tools read their argument as a string). -/
abbrev ArgMap := List (String × String)

/-- Key lookup in an argument bag (Python `"key" in args` /
`args["key"]`). -/
def lookupArg (args : ArgMap) (key : String) : Option String :=
  match args with
  | [] => none
  | (k, v) :: rest => if k = key then some v else lookupArg rest key

/-- Mirror of `_handle_search` (main.py lines 88-129). The returned
pair is the handler outcome (rejection or content blocks) together
with the trace of external calls made. -/
def handle_search (collab : Collab) (args : Option ArgMap) :
    Except DispatchError (List TextContent) × List ExtCall :=
  match args with
  | none => (.error (.missingArgument "query"), [])
  | some a =>
    match lookupArg a "query" with
    | none => (.error (.missingArgument "query"), [])
    | some query =>
      let entries := collab.atomEntries (arxiv_api_url query)
      (match parseEntries entries with
       | .error err => .error err
       | .ok results => .ok (formatResults results),
       [ExtCall.httpGet (arxiv_api_url query)])

/-- The fixed rendering-instruction suffix (main.py lines 142-147). -/
def renderingInstructions : String :=
  "\n\nIMPORTANT INSTRUCTIONS FOR RENDERING:\n" ++
  "When discussing this paper, please use dollar sign notation ($...$) " ++
  "for inline equations and double dollar signs ($...$) for display " ++
  "equations when providing responses that include LaTeX mathematical expressions."

/-- Success metadata of `_handle_fetch` (main.py lines 153-158). -/
def fetchSuccessMetadata (arxivId : String) : List (String × String) :=
  [("id", arxivId), ("title", "arXiv:" ++ arxivId),
   ("url", arxivAbsUrl arxivId), ("source", "arXiv")]

/-- Failure metadata of `_handle_fetch` (main.py lines 167-171). -/
def fetchErrorMetadata (arxivId : String) : List (String × String) :=
  [("id", arxivId), ("title", "Error: " ++ arxivId),
   ("url", arxivAbsUrl arxivId)]

/-- Mirror of `_handle_fetch` (main.py lines 132-173): argument check,
one collaborator call, and either the success block (flattened text
plus the rendering instructions) or the recovered-failure block (the
error message with error-flavoured metadata). Both collaborator
outcomes return `.ok`: the failure is caught, never re-raised. -/
def handle_fetch (collab : Collab) (args : Option ArgMap) :
    Except DispatchError (List TextContent) × List ExtCall :=
  match args with
  | none => (.error (.missingArgument "id"), [])
  | some a =>
    match lookupArg a "id" with
    | none => (.error (.missingArgument "id"), [])
    | some arxivId =>
      (match collab.process_latex_source arxivId with
       | .ok flattened =>
         .ok [{ type := "text"
                text := flattened ++ renderingInstructions
                metadata := some (fetchSuccessMetadata arxivId) }]
       | .error msg =>
         .ok [{ type := "text"
                text := msg
                metadata := some (fetchErrorMetadata arxivId) }],
       [ExtCall.flattenCall arxivId])

/-- Mirror of `handle_call_tool` (main.py lines 76-85): route by tool
name, raising `ValueError` on an unrecognised name. -/
def handle_call_tool (collab : Collab) (name : String) (args : Option ArgMap) :
    Except DispatchError (List TextContent) × List ExtCall :=
  if name = "search" then handle_search collab args
  else if name = "fetch" then handle_fetch collab args
  else (.error (.unknownTool name), [])

/-- Concrete collaborator whose feed is empty and whose flattening
always fails with message "boom"; used to instantiate theorems. -/
def emptyFeedCollab : Collab where
  atomEntries := fun _ => []
  process_latex_source := fun _ => .error "boom"

/-- Concrete collaborator whose flattening succeeds; used to
instantiate theorems. -/
def okFlattenCollab : Collab where
  atomEntries := fun _ => []
  process_latex_source := fun arxivId => .ok ("FLATTENED " ++ arxivId)

/-- C8: the formatter maps the empty record sequence (a parsed feed
with zero entries) to exactly one text content block carrying the
fixed no-papers sentinel verbatim, with no metadata. -/
theorem empty_results_sentinel :
    parseEntries [] = .ok [] ∧
    formatResults [] =
      [{ type := "text", text := "No papers found for the given query.",
         metadata := none }] :=
  ⟨rfl, rfl⟩

/-- C9: for every tool name other than "search" and "fetch", the
dispatcher rejects the call with an unknown-tool error carrying the
offending name; no content block is produced and the external-call
trace is empty. -/
theorem unknown_tool_rejected (collab : Collab) (name : String)
    (args : Option ArgMap) (h1 : name ≠ "search") (h2 : name ≠ "fetch") :
    handle_call_tool collab name args =
      (.error (.unknownTool name), []) := by
  simp [handle_call_tool, h1, h2]

/-- Witness for C9 at the concrete tool name "frobnicate". -/
theorem unknown_tool_rejected_witness :
    handle_call_tool emptyFeedCollab "frobnicate" none =
      (.error (.unknownTool "frobnicate"), []) :=
  unknown_tool_rejected emptyFeedCollab "frobnicate" none
    (by decide) (by decide)

/-- C10: for both tools, a wholly absent argument mapping is handled
exactly like an empty one: the same missing-argument rejection (naming
"query" for search, "id" for fetch) with no external call made. -/
theorem none_args_equiv_empty (collab : Collab) :
    handle_call_tool collab "search" none =
        (.error (.missingArgument "query"), []) ∧
    handle_call_tool collab "search" (some []) =
        (.error (.missingArgument "query"), []) ∧
    handle_call_tool collab "fetch" none =
        (.error (.missingArgument "id"), []) ∧
    handle_call_tool collab "fetch" (some []) =
        (.error (.missingArgument "id"), []) := by
  refine ⟨rfl, rfl, ?_, ?_⟩ <;> rfl

/-- Helper: with the "id" key bound in the mapping, the fetch handler
reaches the collaborator call. -/
theorem handle_fetch_with_id (collab : Collab) (a : ArgMap)
    (arxivId : String) (h : lookupArg a "id" = some arxivId) :
    handle_fetch collab (some a) =
      (match collab.process_latex_source arxivId with
       | .ok flattened =>
         .ok [{ type := "text"
                text := flattened ++ renderingInstructions
                metadata := some (fetchSuccessMetadata arxivId) }]
       | .error msg =>
         .ok [{ type := "text"
                text := msg
                metadata := some (fetchErrorMetadata arxivId) }],
       [ExtCall.flattenCall arxivId]) := by
  simp [handle_fetch, h]

/-- C1: a fetch call whose source-flattening collaborator fails is not
rejected: it returns `.ok` with exactly one content block whose text
is the failure message and whose metadata title is "Error: " followed
by the identifier (hence starts with "Error: "); the failure never
propagates as a dispatch error. -/
theorem fetch_failure_recovered (collab : Collab) (a : ArgMap)
    (arxivId msg : String) (hid : lookupArg a "id" = some arxivId)
    (hfail : collab.process_latex_source arxivId = .error msg) :
    handle_call_tool collab "fetch" (some a) =
      (.ok [{ type := "text"
              text := msg
              metadata := some (fetchErrorMetadata arxivId) }],
       [ExtCall.flattenCall arxivId]) ∧
    lookupArg (fetchErrorMetadata arxivId) "title" =
      some ("Error: " ++ arxivId) := by
  constructor
  · show handle_fetch collab (some a) = _
    rw [handle_fetch_with_id collab a arxivId hid, hfail]
  · rfl

/-- Witness for C1: concrete failing fetch. -/
theorem fetch_failure_recovered_witness :
    handle_call_tool emptyFeedCollab "fetch" (some [("id", "1810.04805")]) =
      (.ok [{ type := "text"
              text := "boom"
              metadata := some (fetchErrorMetadata "1810.04805") }],
       [ExtCall.flattenCall "1810.04805"]) ∧
    lookupArg (fetchErrorMetadata "1810.04805") "title" =
      some ("Error: " ++ "1810.04805") :=
  fetch_failure_recovered emptyFeedCollab [("id", "1810.04805")]
    "1810.04805" "boom" rfl rfl

/-- C4: a fetch call whose source-flattening collaborator succeeds
with text `flattened` returns exactly one content block whose text is
`flattened` followed by the fixed rendering-instruction suffix (so the
text ends with that suffix), with metadata id, title "arXiv:" ++ id,
url "https://arxiv.org/abs/" ++ id and source "arXiv". -/
theorem fetch_success_shape (collab : Collab) (a : ArgMap)
    (arxivId flattened : String) (hid : lookupArg a "id" = some arxivId)
    (hok : collab.process_latex_source arxivId = .ok flattened) :
    handle_call_tool collab "fetch" (some a) =
      (.ok [{ type := "text"
              text := flattened ++ renderingInstructions
              metadata := some (fetchSuccessMetadata arxivId) }],
       [ExtCall.flattenCall arxivId]) ∧
    lookupArg (fetchSuccessMetadata arxivId) "id" = some arxivId ∧
    lookupArg (fetchSuccessMetadata arxivId) "title" =
      some ("arXiv:" ++ arxivId) ∧
    lookupArg (fetchSuccessMetadata arxivId) "url" =
      some ("https://arxiv.org/abs/" ++ arxivId) ∧
    lookupArg (fetchSuccessMetadata arxivId) "source" = some "arXiv" := by
  refine ⟨?_, rfl, rfl, rfl, rfl⟩
  show handle_fetch collab (some a) = _
  rw [handle_fetch_with_id collab a arxivId hid, hok]

/-- Witness for C4: concrete successful fetch. -/
theorem fetch_success_shape_witness :
    handle_call_tool okFlattenCollab "fetch" (some [("id", "2403.12345")]) =
      (.ok [{ type := "text"
              text := ("FLATTENED " ++ "2403.12345") ++ renderingInstructions
              metadata := some (fetchSuccessMetadata "2403.12345") }],
       [ExtCall.flattenCall "2403.12345"]) ∧
    lookupArg (fetchSuccessMetadata "2403.12345") "id" = some "2403.12345" ∧
    lookupArg (fetchSuccessMetadata "2403.12345") "title" =
      some ("arXiv:" ++ "2403.12345") ∧
    lookupArg (fetchSuccessMetadata "2403.12345") "url" =
      some ("https://arxiv.org/abs/" ++ "2403.12345") ∧
    lookupArg (fetchSuccessMetadata "2403.12345") "source" = some "arXiv" :=
  fetch_success_shape okFlattenCollab [("id", "2403.12345")]
    "2403.12345" ("FLATTENED " ++ "2403.12345") rfl rfl

/-- Counterexample to C2 as stated: the mapping binding "query" to the
empty string is NOT rejected — the handler proceeds, makes the network
call (non-empty trace), and returns a content block. -/
theorem search_empty_query_string_accepted :
    (handle_call_tool emptyFeedCollab "search" (some [("query", "")])).2 ≠ [] ∧
    (handle_call_tool emptyFeedCollab "search" (some [("query", "")])).1 =
      .ok [{ type := "text", text := "No papers found for the given query.",
             metadata := none }] := by
  exact ⟨by decide, rfl⟩

/-- C2 (amended): the search tool rejects with a missing-argument
error naming "query" — producing no content block and making no
network call — exactly when the argument mapping is absent or contains
no "query" key (the empty mapping contains no keys); presence of the
key suffices, so the empty string as a query value is accepted. -/
theorem search_missing_query_rejected (collab : Collab) (a : ArgMap)
    (h : lookupArg a "query" = none) :
    handle_call_tool collab "search" (some a) =
        (.error (.missingArgument "query"), []) ∧
    handle_call_tool collab "search" none =
        (.error (.missingArgument "query"), []) := by
  constructor
  · show handle_search collab (some a) = _
    simp [handle_search, h]
  · rfl

/-- Witness for C2 (amended): mapping without the "query" key. -/
theorem search_missing_query_rejected_witness :
    handle_call_tool emptyFeedCollab "search" (some [("foo", "bar")]) =
        (.error (.missingArgument "query"), []) ∧
    handle_call_tool emptyFeedCollab "search" none =
        (.error (.missingArgument "query"), []) :=
  search_missing_query_rejected emptyFeedCollab [("foo", "bar")] rfl

set_option maxRecDepth 10000 in
/-- C3 evaluation at the failing input: for a (trimmed) summary of 501
characters the record text has 503 characters, not at most 501,
because the appended marker is the three-character mojibake sequence
"â€¦" rather than one ellipsis glyph; the no-op branch at 500
characters is unmodified as claimed. -/
theorem truncation_mojibake_eval :
    (truncateSummary ⟨List.replicate 501 'a'⟩).length = 503 ∧
    mojibakeEllipsis.length = 3 ∧
    truncateSummary ⟨List.replicate 501 'a'⟩ =
      (⟨List.replicate 500 'a'⟩ : String) ++ mojibakeEllipsis ∧
    truncateSummary ⟨List.replicate 500 'a'⟩ =
      ⟨List.replicate 500 'a'⟩ := by
  decide

/-- Helper: `pySplit` never returns the empty list of segments. -/
theorem pySplit_ne_nil (sep : Char) (l : List Char) : pySplit sep l ≠ [] := by
  cases l with
  | nil => simp [pySplit]
  | cons c cs =>
    simp only [pySplit]
    split
    · simp
    · split
      · simp
      · simp

/-- Helper: no segment produced by `pySplit` contains the separator. -/
theorem sep_not_mem_pySplit (sep : Char) (l : List Char) :
    ∀ seg ∈ pySplit sep l, sep ∉ seg := by
  induction l with
  | nil =>
    intro seg hseg
    simp [pySplit] at hseg
    simp [hseg]
  | cons c cs ih =>
    intro seg hseg
    by_cases hc : c = sep
    · simp only [pySplit, if_pos hc, List.mem_cons] at hseg
      rcases hseg with h | h
      · simp [h]
      · exact ih seg h
    · simp only [pySplit, if_neg hc] at hseg
      cases hsplit : pySplit sep cs with
      | nil => exact absurd hsplit (pySplit_ne_nil sep cs)
      | cons seg0 rest =>
        rw [hsplit] at hseg
        simp only [List.mem_cons] at hseg
        rcases hseg with h | h
        · subst h
          intro hmem
          rcases List.mem_cons.mp hmem with h1 | h1
          · exact hc h1.symm
          · exact ih seg0 (by rw [hsplit]; exact List.mem_cons_self _ _) h1
        · exact ih seg (by rw [hsplit]; exact List.mem_cons_of_mem _ h)

/-- Helper: `getLastD` of a non-empty list is a member of it. -/
theorem getLastD_mem_of_ne_nil {α : Type} :
    ∀ (l : List α) (d : α), l ≠ [] → l.getLastD d ∈ l := by
  intro l
  induction l with
  | nil => intro d h; exact absurd rfl h
  | cons a t ih =>
    intro d _
    rw [List.getLastD_cons]
    cases ht : t with
    | nil => simp
    | cons b t2 =>
      have := ih a (by simp [ht])
      rw [ht] at this
      exact List.mem_cons_of_mem a (ht ▸ this)

/-- C5: the record id derived from a feed entry is the segment of the
entry id after its final "/" with no further stripping — in particular
"http://arxiv.org/abs/2403.12345v2" yields "2403.12345v2", the version
suffix kept — and no derived id ever contains an embedded "/". -/
theorem id_last_segment_no_slash :
    lastSegment "http://arxiv.org/abs/2403.12345v2" = "2403.12345v2" ∧
    (∀ (idText titleText summaryText : String),
      mkRecord { id := some idText, title := some titleText,
                 summary := some summaryText } =
        .ok { id := lastSegment idText
              title := titleText.trim
              text := truncateSummary summaryText.trim
              url := arxivAbsUrl (lastSegment idText) }) ∧
    (∀ s : String, ('/') ∉ (lastSegment s).data) := by
  refine ⟨by decide, fun _ _ _ => rfl, ?_⟩
  intro s
  have hne := pySplit_ne_nil ('/') s.data
  have hmem := getLastD_mem_of_ne_nil (pySplit ('/') s.data) [] hne
  exact sep_not_mem_pySplit ('/') s.data _ hmem

/-- Helper: an entry with a missing required field makes `mkRecord`
fail with a parse error naming the first missing field. -/
theorem mkRecord_error_of_missing (e : Entry)
    (h : e.id = none ∨ e.title = none ∨ e.summary = none) :
    ∃ f, mkRecord e = .error (.parseError f) := by
  rcases e with ⟨i, t, s⟩
  rcases i with _ | i
  · exact ⟨"id", rfl⟩
  · rcases t with _ | t
    · exact ⟨"title", rfl⟩
    · rcases s with _ | s
      · exact ⟨"summary", rfl⟩
      · simp at h

/-- Helper: `mkRecord` either succeeds or fails with a parse error. -/
theorem mkRecord_shape (e : Entry) :
    (∃ r, mkRecord e = .ok r) ∨ (∃ f, mkRecord e = .error (.parseError f)) := by
  rcases e with ⟨i, t, s⟩
  rcases i with _ | i
  · exact .inr ⟨"id", rfl⟩
  · rcases t with _ | t
    · exact .inr ⟨"title", rfl⟩
    · rcases s with _ | s
      · exact .inr ⟨"summary", rfl⟩
      · exact .inl ⟨_, rfl⟩

/-- Helper: the unfolding equation of `parseEntries` on a cons. -/
theorem parseEntries_cons_eq (e : Entry) (es : List Entry) :
    parseEntries (e :: es) =
      Except.bind (mkRecord e)
        (fun r => Except.bind (parseEntries es)
          (fun rs => Except.ok (r :: rs))) := rfl

/-- Helper: a feed with any entry missing a required field makes the
whole parse fail; no record list is produced. -/
theorem parseEntries_error_of_missing :
    ∀ (entries : List Entry),
      (∃ e ∈ entries, e.id = none ∨ e.title = none ∨ e.summary = none) →
      ∃ f, parseEntries entries = .error (.parseError f) := by
  intro entries
  induction entries with
  | nil => intro h; simp at h
  | cons e es ih =>
    intro h
    rcases h with ⟨e0, he0, hmiss⟩
    rcases List.mem_cons.mp he0 with rfl | hmem
    · obtain ⟨f, hf⟩ := mkRecord_error_of_missing e0 hmiss
      refine ⟨f, ?_⟩
      rw [parseEntries_cons_eq, hf]
      rfl
    · rcases mkRecord_shape e with ⟨r, hr⟩ | ⟨f, hf⟩
      · obtain ⟨f, hf⟩ := ih ⟨e0, hmem, hmiss⟩
        refine ⟨f, ?_⟩
        rw [parseEntries_cons_eq, hr]
        show Except.bind (parseEntries es) _ = _
        rw [hf]
        rfl
      · refine ⟨f, ?_⟩
        rw [parseEntries_cons_eq, hf]
        rfl

/-- Concrete collaborator returning one feed entry with a missing
title; used to instantiate theorems. -/
def badEntryCollab : Collab where
  atomEntries := fun _ =>
    [{ id := some "http://arxiv.org/abs/1234.5678", title := none,
       summary := some "s" }]
  process_latex_source := fun _ => .error "x"

/-- C6: a feed containing an entry missing a required field (id, title
or summary) aborts the whole parse: the search call is rejected with a
parse error, and no content block — in particular no partial result
for the remaining entries — is returned. -/
theorem missing_field_rejects_search (collab : Collab) (q : String)
    (h : ∃ e ∈ collab.atomEntries (arxiv_api_url q),
           e.id = none ∨ e.title = none ∨ e.summary = none) :
    ∃ f, handle_call_tool collab "search" (some [("query", q)]) =
      (.error (.parseError f), [ExtCall.httpGet (arxiv_api_url q)]) := by
  obtain ⟨f, hf⟩ := parseEntries_error_of_missing _ h
  refine ⟨f, ?_⟩
  show handle_search collab (some [("query", q)]) = _
  simp [handle_search, lookupArg, hf]

/-- Witness for C6: a concrete feed whose single entry has no title. -/
theorem missing_field_rejects_search_witness :
    ∃ f, handle_call_tool badEntryCollab "search" (some [("query", "cats")]) =
      (.error (.parseError f), [ExtCall.httpGet (arxiv_api_url "cats")]) :=
  missing_field_rejects_search badEntryCollab "cats" (by decide)

/-- Helper: `String.data` distributes over append. -/
theorem str_data_append (a b : String) : (a ++ b).data = a.data ++ b.data :=
  String.data_append a b

/-- Helper: a non-empty list is its default-head cons its tail. -/
theorem headD_cons_tail {α : Type} (L : List α) (d : α) (h : L ≠ []) :
    L.headD d :: L.tail = L := by
  cases L with
  | nil => exact absurd rfl h
  | cons x xs => rfl

/-- Helper: prepending separator-free text merges it into the first
segment of the split. -/
theorem pySplit_append_no_sep (sep : Char) :
    ∀ (l1 : List Char), sep ∉ l1 → ∀ (rest : List Char),
      pySplit sep (l1 ++ rest) =
        (l1 ++ (pySplit sep rest).headD []) :: (pySplit sep rest).tail := by
  intro l1
  induction l1 with
  | nil =>
    intro _ rest
    simp only [List.nil_append]
    exact (headD_cons_tail (pySplit sep rest) [] (pySplit_ne_nil sep rest)).symm
  | cons c cs ih =>
    intro hmem rest
    have hc : c ≠ sep := fun h => hmem (h ▸ List.mem_cons_self c cs)
    have hcs : sep ∉ cs := fun h => hmem (List.mem_cons_of_mem c h)
    simp only [List.cons_append, pySplit, if_neg (fun h => hc h), List.append_eq]
    rw [ih hcs rest]

/-- Helper: a leading separator opens an empty segment. -/
theorem pySplit_sep_cons (sep : Char) (rest : List Char) :
    pySplit sep (sep :: rest) = [] :: pySplit sep rest := by
  simp [pySplit]

/-- Helper: one separator-terminated line becomes one segment. -/
theorem pySplit_line_append (sep : Char) (l1 : List Char) (h : sep ∉ l1)
    (rest : List Char) :
    pySplit sep (l1 ++ sep :: rest) = l1 :: pySplit sep rest := by
  rw [pySplit_append_no_sep sep l1 h, pySplit_sep_cons]
  simp

/-- Helper: a line made of two separator-free pieces becomes one
segment. -/
theorem pySplit_two_append (sep : Char) (a b : List Char) (ha : sep ∉ a)
    (hb : sep ∉ b) (rest : List Char) :
    pySplit sep (a ++ (b ++ sep :: rest)) = (a ++ b) :: pySplit sep rest := by
  rw [pySplit_append_no_sep sep a ha, pySplit_line_append sep b hb]
  simp

/-- The five line segments contributed by one record block: the four
content lines and the empty line closing the block. -/
def recordLines (r : SearchResultModel) : List (List Char) :=
  ["ID: ".data ++ r.id.data, "Title: ".data ++ r.title.data,
   "Summary: ".data ++ r.text.data, "URL: ".data ++ r.url.data, []]

/-- Helper: the characters of `recordBlock` in right-nested form. -/
theorem recordBlock_data_assoc (r : SearchResultModel) (rest : List Char) :
    (recordBlock r).data ++ rest =
      "ID: ".data ++ (r.id.data ++ (Char.ofNat 10 ::
        ("Title: ".data ++ (r.title.data ++ (Char.ofNat 10 ::
          ("Summary: ".data ++ (r.text.data ++ (Char.ofNat 10 ::
            ("URL: ".data ++ (r.url.data ++ (Char.ofNat 10 ::
              Char.ofNat 10 :: rest))))))))))) := by
  simp [recordBlock,
        show ("\n" : String).data = [Char.ofNat 10] from rfl,
        show ("\n\n" : String).data = [Char.ofNat 10, Char.ofNat 10] from rfl,
        str_data_append, List.append_assoc]

/-- Helper: splitting one newline-free record block yields its five
line segments. -/
theorem pySplit_recordBlock (r : SearchResultModel) (rest : List Char)
    (h1 : Char.ofNat 10 ∉ r.id.data) (h2 : Char.ofNat 10 ∉ r.title.data)
    (h3 : Char.ofNat 10 ∉ r.text.data) (h4 : Char.ofNat 10 ∉ r.url.data) :
    pySplit (Char.ofNat 10) ((recordBlock r).data ++ rest) =
      recordLines r ++ pySplit (Char.ofNat 10) rest := by
  rw [recordBlock_data_assoc]
  rw [pySplit_two_append (Char.ofNat 10) _ _ (by decide) h1]
  rw [pySplit_two_append (Char.ofNat 10) _ _ (by decide) h2]
  rw [pySplit_two_append (Char.ofNat 10) _ _ (by decide) h3]
  rw [pySplit_two_append (Char.ofNat 10) _ _ (by decide) h4]
  rw [pySplit_sep_cons]
  rfl

/-- Helper: the characters produced by the formatting fold are the
header followed by the concatenated blocks. -/
theorem foldl_recordBlock_data :
    ∀ (l : List SearchResultModel) (acc : String),
      (l.foldl (fun a r => a ++ recordBlock r) acc).data =
        acc.data ++ (l.map (fun r => (recordBlock r).data)).flatten := by
  intro l
  induction l with
  | nil => intro acc; simp
  | cons r rs ih =>
    intro acc
    simp only [List.foldl_cons, List.map_cons, List.flatten_cons]
    rw [ih (acc ++ recordBlock r), str_data_append]
    simp [List.append_assoc]

/-- Helper: `formattedText` at the character level. -/
theorem formattedText_data (results : List SearchResultModel) :
    (formattedText results).data =
      searchHeader.data ++
        (results.map (fun r => (recordBlock r).data)).flatten :=
  foldl_recordBlock_data results searchHeader

/-- Helper: splitting the concatenated newline-free record blocks
yields the concatenated per-record line segments. -/
theorem pySplit_blocks :
    ∀ (results : List SearchResultModel),
      (∀ r ∈ results, Char.ofNat 10 ∉ r.id.data ∧ Char.ofNat 10 ∉ r.title.data ∧
        Char.ofNat 10 ∉ r.text.data ∧ Char.ofNat 10 ∉ r.url.data) →
      ∀ (rest : List Char),
        pySplit (Char.ofNat 10)
            ((results.map (fun r => (recordBlock r).data)).flatten ++ rest) =
          (results.map recordLines).flatten ++ pySplit (Char.ofNat 10) rest := by
  intro results
  induction results with
  | nil => intro _ rest; simp
  | cons r rs ih =>
    intro h rest
    obtain ⟨h1, h2, h3, h4⟩ := h r (List.mem_cons_self r rs)
    simp only [List.map_cons, List.flatten_cons, List.append_assoc]
    rw [pySplit_recordBlock r _ h1 h2 h3 h4]
    rw [ih (fun x hx => h x (List.mem_cons_of_mem r hx)) rest]

/-- The lines of a text in the Python sense: split on the newline
character, keeping empty lines. -/
def linesOf (s : String) : List (List Char) :=
  pySplit (Char.ofNat 10) s.data

/-- Helper: the header string is its line plus two newlines. -/
theorem searchHeader_data :
    searchHeader.data =
      "Search Results:".data ++ (Char.ofNat 10 :: Char.ofNat 10 :: []) := rfl

/-- Decision of whether a line is an "ID:" line: it starts with the
four characters of the per-record ID prefix. -/
def isIdLine (l : List Char) : Bool :=
  List.isPrefixOf "ID: ".data l

/-- Helper: a line starting with the ID prefix is an ID line. -/
theorem isIdLine_id (x : List Char) :
    isIdLine ('I' :: 'D' :: ':' :: ' ' :: x) = true := by
  simp [isIdLine, List.isPrefixOf]

/-- Helper: a Title line is not an ID line. -/
theorem isIdLine_title (x : List Char) :
    isIdLine ('T' :: 'i' :: 't' :: 'l' :: 'e' :: ':' :: ' ' :: x) = false := by
  simp [isIdLine, List.isPrefixOf]

/-- Helper: a Summary line is not an ID line. -/
theorem isIdLine_summary (x : List Char) :
    isIdLine ('S' :: 'u' :: 'm' :: 'm' :: 'a' :: 'r' :: 'y' :: ':' :: ' ' :: x) = false := by
  simp [isIdLine, List.isPrefixOf]

/-- Helper: a URL line is not an ID line. -/
theorem isIdLine_url (x : List Char) :
    isIdLine ('U' :: 'R' :: 'L' :: ':' :: ' ' :: x) = false := by
  simp [isIdLine, List.isPrefixOf]

/-- Helper: an empty line is not an ID line. -/
theorem isIdLine_nil : isIdLine [] = false := by
  simp [isIdLine, List.isPrefixOf]

/-- Helper: the header line is not an ID line. -/
theorem isIdLine_header : isIdLine "Search Results:".data = false := by
  simp [isIdLine, List.isPrefixOf]

/-- Helper: among the concatenated per-record line segments, the ID
lines are exactly one per record, in record order. -/
theorem filter_recordLines_flatten :
    ∀ (results : List SearchResultModel),
      ((results.map recordLines).flatten ++ [[]]).filter isIdLine =
        results.map (fun r => "ID: ".data ++ r.id.data) := by
  intro results
  induction results with
  | nil => simp [isIdLine_nil]
  | cons r rs ih =>
    simp only [List.map_cons, List.flatten_cons, List.append_assoc]
    rw [List.filter_append, ih]
    simp [recordLines, List.filter_cons, isIdLine_id, isIdLine_title,
          isIdLine_summary, isIdLine_url, isIdLine_nil]

/-- Helper: full line decomposition of the non-empty formatter output
when no record field contains a newline. -/
theorem linesOf_formattedText (results : List SearchResultModel)
    (hnl : ∀ r ∈ results,
      Char.ofNat 10 ∉ r.id.data ∧ Char.ofNat 10 ∉ r.title.data ∧
      Char.ofNat 10 ∉ r.text.data ∧ Char.ofNat 10 ∉ r.url.data) :
    linesOf (formattedText results) =
      "Search Results:".data :: [] ::
        ((results.map recordLines).flatten ++ [[]]) := by
  show pySplit (Char.ofNat 10) (formattedText results).data = _
  rw [formattedText_data, searchHeader_data, List.append_assoc]
  rw [show (Char.ofNat 10 :: Char.ofNat 10 :: ([] : List Char)) ++
        (results.map (fun r => (recordBlock r).data)).flatten =
      Char.ofNat 10 :: Char.ofNat 10 ::
        ((results.map (fun r => (recordBlock r).data)).flatten ++ [])
    from by simp]
  rw [pySplit_line_append (Char.ofNat 10) _ (by decide)]
  rw [pySplit_sep_cons]
  rw [pySplit_blocks results hnl []]
  rfl

/-- C7 (amended): for every non-empty record sequence whose fields
contain no newline character, the formatter emits one text block whose
lines are the one-line header, a blank line, then per record in input
order the four lines ID, Title, Summary, URL followed by a blank line;
consequently the lines starting with "ID: " are exactly one per input
record, in input order. -/
theorem formatter_lines_structure (results : List SearchResultModel)
    (hne : results ≠ [])
    (hnl : ∀ r ∈ results,
      Char.ofNat 10 ∉ r.id.data ∧ Char.ofNat 10 ∉ r.title.data ∧
      Char.ofNat 10 ∉ r.text.data ∧ Char.ofNat 10 ∉ r.url.data) :
    formatResults results =
      [{ type := "text", text := formattedText results, metadata := none }] ∧
    linesOf (formattedText results) =
      "Search Results:".data :: [] ::
        ((results.map recordLines).flatten ++ [[]]) ∧
    (linesOf (formattedText results)).filter isIdLine =
      results.map (fun r => "ID: ".data ++ r.id.data) := by
  have hlines := linesOf_formattedText results hnl
  refine ⟨?_, hlines, ?_⟩
  · simp [formatResults, hne]
  · rw [hlines]
    simp only [List.filter_cons, isIdLine_header, isIdLine_nil]
    simpa using filter_recordLines_flatten results

/-- Concrete record used to instantiate theorems. -/
def sampleRec1 : SearchResultModel :=
  { id := "11", title := "T1", text := "S1", url := "u1" }

/-- Second concrete record used to instantiate theorems. -/
def sampleRec2 : SearchResultModel :=
  { id := "22", title := "T2", text := "S2", url := "u2" }

/-- Witness for C7 (amended) on two concrete records. -/
theorem formatter_lines_structure_witness :
    formatResults [sampleRec1, sampleRec2] =
      [{ type := "text", text := formattedText [sampleRec1, sampleRec2],
         metadata := none }] ∧
    linesOf (formattedText [sampleRec1, sampleRec2]) =
      "Search Results:".data :: [] ::
        (([sampleRec1, sampleRec2].map recordLines).flatten ++ [[]]) ∧
    (linesOf (formattedText [sampleRec1, sampleRec2])).filter isIdLine =
      [sampleRec1, sampleRec2].map (fun r => "ID: ".data ++ r.id.data) :=
  formatter_lines_structure [sampleRec1, sampleRec2] (by decide) (by decide)

/-- Record whose summary embeds a newline followed by an "ID: " line;
such summaries reach the formatter unchanged since trimming and
truncation keep inner newlines. -/
def newlineRec : SearchResultModel :=
  { id := "1", title := "T", text := "x\nID: fake", url := "u" }

/-- Counterexample to C7 as stated: one input record whose formatted
output contains two lines starting with "ID: ", so the formatter does
not produce exactly one "ID:" line per input record for every record
sequence. -/
theorem formatter_newline_counterexample :
    ((linesOf (formattedText [newlineRec])).filter isIdLine).length = 2 ∧
    ([newlineRec] : List SearchResultModel).length = 1 := by
  decide
